import Mathlib

/-!
Verification development for the vehicle-monitoring stream processor
(`stream_processor.py`).

The per-frame capture pipeline of `SmartVehicleCapture` is embedded
shallowly:

* Wall-clock times, confidences, motion ratios and similarity scores are
  modelled as rationals (`ℚ`); the Python floats involved are compared
  against constants whose comparison outcomes coincide with the exact
  rational comparisons at every value the pipeline can produce.
* The perceptual hash (the external `imagehash` library, out of scope of
  the repository) is modelled as an abstract type `Hash` together with a
  distance function `dist : Hash → Hash → ℕ`, mirroring the spec's
  "black-box fixed-length fingerprint generator with a distance function";
  the code's `current_hash - recent_hash` is `dist current_hash recent_hash`.
* External effects observed by one call to `process_frame` (the background
  subtractor's motion ratio, the YOLO call's result or raised exception,
  the fingerprint of the extracted region, the S3 upload outcome) are
  packaged as a per-frame input record `FrameInput`.
* A Python exception raised inside `process_frame` is modelled as the
  `Except.error` branch, carrying the state as mutated so far (Python
  mutations performed before the raise persist on the object).
* The mutable object state (`recent_hashes`, `last_capture_time`,
  `frames_since_last_capture`, `stats`) is threaded explicitly as
  `CaptureState`.
-/

namespace VehicleMonitor

/-- `CAPTURE_INTERVAL_SECONDS = 2.0`: minimum seconds between captures. -/
def CAPTURE_INTERVAL_SECONDS : ℚ := 2.0

/-- `MOTION_THRESHOLD = 0.05`: fraction of the frame that must show motion. -/
def MOTION_THRESHOLD : ℚ := 0.05

/-- `VEHICLE_CONFIDENCE_THRESHOLD = 0.6`: YOLO confidence threshold. -/
def VEHICLE_CONFIDENCE_THRESHOLD : ℚ := 0.6

/-- `HASH_SIMILARITY_THRESHOLD = 0.85`: similarity above this is a duplicate. -/
def HASH_SIMILARITY_THRESHOLD : ℚ := 0.85

/-- `MAX_RECENT_HASHES = 30`: bound on the dedup cache. -/
def MAX_RECENT_HASHES : ℕ := 30

/-- `VEHICLE_CLASSES`: the COCO class-id allow-list `{2: car, 3: motorcycle,
5: bus, 7: truck}`, as a partial map from class id to class name. -/
def VEHICLE_CLASSES : ℕ → Option String := fun class_id =>
  match class_id with
  | 2 => some "car"
  | 3 => some "motorcycle"
  | 5 => some "bus"
  | 7 => some "truck"
  | _ => none

/-- `CameraROI`: normalized region of interest (fields of the Python
dataclass). -/
structure CameraROI where
  x : ℚ
  y : ℚ
  width : ℚ
  height : ℚ
deriving DecidableEq

/-- The default ROI built in `__init__`: `CameraROI(x=0.3, y=0.35,
width=0.4, height=0.3)`. -/
def default_roi : CameraROI := { x := 0.3, y := 0.35, width := 0.4, height := 0.3 }

/-- One raw box of the YOLO result, before the vehicle/confidence filter:
class id `box.cls[0]`, confidence `box.conf[0]`, and the float corner
coordinates `box.xyxy[0]`. -/
structure RawBox where
  cls : ℕ
  conf : ℚ
  xyxy : ℚ × ℚ × ℚ × ℚ
deriving DecidableEq

/-- Python `int()` truncation toward zero on a rational. -/
def pyInt (q : ℚ) : ℤ := q.num.tdiv (q.den : ℤ)

/-- `VehicleDetection`: the dataclass produced by `detect_vehicles_yolo`. -/
structure VehicleDetection where
  class_name : String
  confidence : ℚ
  bbox : ℤ × ℤ × ℤ × ℤ
  in_roi : Bool
deriving DecidableEq

/-- `is_in_capture_zone`: scales the normalized ROI by the frame dimensions
and tests inclusive containment of the point. -/
def is_in_capture_zone (roi : CameraROI) (center_x center_y : ℚ)
    (frame_width frame_height : ℕ) : Bool :=
  let roi_x_min : ℚ := frame_width * roi.x
  let roi_x_max : ℚ := frame_width * (roi.x + roi.width)
  let roi_y_min : ℚ := frame_height * roi.y
  let roi_y_max : ℚ := frame_height * (roi.y + roi.height)
  decide (roi_x_min ≤ center_x ∧ center_x ≤ roi_x_max ∧
          roi_y_min ≤ center_y ∧ center_y ≤ roi_y_max)

/-- Builds the `VehicleDetection` record for a raw box that passed the
class/confidence filter: integer bbox, centroid computed from the float
corners, and the ROI classification of the centroid. -/
def mk_detection (roi : CameraROI) (w h : ℕ) (box : RawBox) (cname : String) :
    VehicleDetection :=
  let (x1, y1, x2, y2) := box.xyxy
  { class_name := cname
    confidence := box.conf
    bbox := (pyInt x1, pyInt y1, pyInt x2, pyInt y2)
    in_roi := is_in_capture_zone roi ((x1 + x2) / 2) ((y1 + y2) / 2) w h }

/-- `detect_vehicles_yolo`, from the raw YOLO boxes onward: keeps a box iff
its class id is in `VEHICLE_CLASSES` and its confidence is strictly above
`VEHICLE_CONFIDENCE_THRESHOLD`, and only then computes the centroid's ROI
classification. -/
def detect_vehicles_yolo (roi : CameraROI) (w h : ℕ) (boxes : List RawBox) :
    List VehicleDetection :=
  boxes.filterMap fun box =>
    match VEHICLE_CLASSES box.cls with
    | some cname =>
        if box.conf > VEHICLE_CONFIDENCE_THRESHOLD then
          some (mk_detection roi w h box cname)
        else
          none
    | none => none

/-- `has_significant_motion`, given the motion ratio reported by the
background subtractor (`motion_pixels / total_pixels`). -/
def has_significant_motion (motion_ratio : ℚ) : Bool :=
  decide (motion_ratio > MOTION_THRESHOLD)

/-- The body of the comparison loop of `is_duplicate_vehicle`:
`hash_diff = current_hash - recent_hash`, `similarity = 1 - hash_diff/256.0`,
match iff `similarity > HASH_SIMILARITY_THRESHOLD`. -/
def hash_match {Hash : Type} (dist : Hash → Hash → ℕ) (current_hash recent_hash : Hash) :
    Bool :=
  let hash_diff : ℚ := (dist current_hash recent_hash : ℚ)
  let similarity : ℚ := 1 - hash_diff / 256.0
  decide (similarity > HASH_SIMILARITY_THRESHOLD)

/-- `is_duplicate_vehicle` on the hash of the candidate region: returns
whether the candidate matches any cached hash; when it does not, appends it
and pops index 0 once the cache length exceeds `MAX_RECENT_HASHES`.
Returns the flag together with the new `recent_hashes`. -/
def is_duplicate_vehicle {Hash : Type} (dist : Hash → Hash → ℕ) (current_hash : Hash)
    (recent_hashes : List Hash) : Bool × List Hash :=
  if recent_hashes.any (fun recent_hash => hash_match dist current_hash recent_hash) then
    (true, recent_hashes)
  else
    let recent2 := recent_hashes ++ [current_hash]
    if recent2.length > MAX_RECENT_HASHES then
      (false, recent2.drop 1)
    else
      (false, recent2)

/-- `upload_to_s3`, at the level observable by the pipeline: on success
increments `captures_uploaded` and returns `true`; the `except` clause
increments `errors` and returns `false`. -/
structure Stats where
  frames_processed : ℕ
  motion_detected : ℕ
  vehicles_detected : ℕ
  vehicles_in_roi : ℕ
  duplicates_filtered : ℕ
  captures_uploaded : ℕ
  errors : ℕ
deriving DecidableEq

/-- The `self.stats` dictionary as initialized in `__init__`: all zero. -/
def init_stats : Stats :=
  { frames_processed := 0, motion_detected := 0, vehicles_detected := 0
    vehicles_in_roi := 0, duplicates_filtered := 0, captures_uploaded := 0
    errors := 0 }

/-- Mutable state of a `SmartVehicleCapture` instance that the per-frame
pipeline reads and writes. -/
structure CaptureState (Hash : Type) where
  recent_hashes : List Hash
  last_capture_time : ℚ
  frames_since_last_capture : ℕ
  stats : Stats
deriving DecidableEq

/-- The state established by `__init__`: empty hash cache,
`last_capture_time = 0`, `frames_since_last_capture = 0`, zero stats. -/
def pipeline_init {Hash : Type} : CaptureState Hash :=
  { recent_hashes := [], last_capture_time := 0
    frames_since_last_capture := 0, stats := init_stats }

/-- External observations consumed by one `process_frame` call: the motion
ratio of the background subtractor, the frame dimensions, the YOLO call's
result (`Except.error` models a raised exception), the perceptual hash of
the extracted vehicle region, and the S3 upload outcome. -/
structure FrameInput (Hash : Type) where
  motion_ratio : ℚ
  width : ℕ
  height : ℕ
  detector : Except String (List RawBox)
  fingerprint : Hash
  upload_ok : Bool

/-- `upload_to_s3` as observed by `process_frame`: the upload outcome is an
input; success increments `captures_uploaded`, failure is caught inside the
method, increments `errors`, and yields `False`. -/
def upload_to_s3 (upload_ok : Bool) (stats : Stats) : Bool × Stats :=
  if upload_ok then
    (true, { stats with captures_uploaded := stats.captures_uploaded + 1 })
  else
    (false, { stats with errors := stats.errors + 1 })

/-- Labels for the distinct `return` sites of `process_frame`; the Python
return value is `true` exactly for `admitted true` (see `Outcome.toBool`). -/
inductive Outcome where
  | no_motion
  | no_detection
  | no_detection_in_zone
  | rate_limited
  | duplicate
  | admitted (upload_success : Bool)
deriving DecidableEq

/-- The boolean actually returned by the Python `process_frame` at the
return site labelled by the outcome. -/
def Outcome.toBool : Outcome → Bool
  | .admitted b => b
  | _ => false

/-- The selection loop over `vehicles`: take the first detection with
`in_roi`, else none. -/
def selected_vehicle (vehicles : List VehicleDetection) : Option VehicleDetection :=
  vehicles.find? (fun vehicle => vehicle.in_roi)

/-- `process_frame`: the 3-layer pipeline, one frame. `Except.error (e, st)`
models an exception `e` raised mid-frame with the mutations performed so far
(`stats`, `frames_since_last_capture`) already applied; the only raising
call reachable from `process_frame` is the YOLO inference inside
`detect_vehicles_yolo`, which has no surrounding `try`. -/
def process_frame {Hash : Type} (dist : Hash → Hash → ℕ) (roi : CameraROI)
    (st : CaptureState Hash) (f : FrameInput Hash) (current_time : ℚ) :
    Except (String × CaptureState Hash) (Outcome × CaptureState Hash) :=
  let stats := { st.stats with frames_processed := st.stats.frames_processed + 1 }
  let frames_since := st.frames_since_last_capture + 1
  if !has_significant_motion f.motion_ratio then
    .ok (.no_motion, { st with stats := stats, frames_since_last_capture := frames_since })
  else
    let stats := { stats with motion_detected := stats.motion_detected + 1 }
    match f.detector with
    | .error e =>
        .error (e, { st with stats := stats, frames_since_last_capture := frames_since })
    | .ok raw =>
      let vehicles := detect_vehicles_yolo roi f.width f.height raw
      if vehicles.isEmpty then
        .ok (.no_detection,
             { st with stats := stats, frames_since_last_capture := frames_since })
      else
        let stats := { stats with vehicles_detected := stats.vehicles_detected + 1 }
        match selected_vehicle vehicles with
        | none =>
            .ok (.no_detection_in_zone,
                 { st with stats := stats, frames_since_last_capture := frames_since })
        | some _vehicle_in_roi =>
          let stats := { stats with vehicles_in_roi := stats.vehicles_in_roi + 1 }
          let time_since_last_capture := current_time - st.last_capture_time
          if time_since_last_capture < CAPTURE_INTERVAL_SECONDS then
            .ok (.rate_limited,
                 { st with stats := stats, frames_since_last_capture := frames_since })
          else
            let dup := is_duplicate_vehicle dist f.fingerprint st.recent_hashes
            if dup.1 then
              let stats := { stats with duplicates_filtered := stats.duplicates_filtered + 1 }
              .ok (.duplicate,
                   { st with recent_hashes := dup.2, stats := stats,
                             frames_since_last_capture := frames_since })
            else
              let up := upload_to_s3 f.upload_ok stats
              if up.1 then
                .ok (.admitted true,
                     { recent_hashes := dup.2, last_capture_time := current_time,
                       frames_since_last_capture := 0, stats := up.2 })
              else
                .ok (.admitted false,
                     { st with recent_hashes := dup.2, stats := up.2,
                               frames_since_last_capture := frames_since })

/-- The normal outcome of a `process_frame` call, `none` when it raised. -/
def result_outcome {Hash : Type} :
    Except (String × CaptureState Hash) (Outcome × CaptureState Hash) → Option Outcome
  | .ok (o, _) => some o
  | .error _ => none

/-- The instance state after a `process_frame` call, raised or not. -/
def result_state {Hash : Type} :
    Except (String × CaptureState Hash) (Outcome × CaptureState Hash) → CaptureState Hash
  | .ok (_, s) => s
  | .error (_, s) => s

/-- The streaming `while` loop of `run`, over the sequence of sampled frames
(each with its `time.time()` value). The loop body calls `process_frame`;
the surrounding `try` is outside the loop, so a raised exception leaves the
loop with the state as mutated so far — the `except Exception` clause logs
and falls through to `finally` (release, print stats) without incrementing
any counter and without processing the remaining frames. -/
def run_loop {Hash : Type} (dist : Hash → Hash → ℕ) (roi : CameraROI) :
    List (FrameInput Hash × ℚ) → CaptureState Hash → CaptureState Hash
  | [], st => st
  | (f, t) :: rest, st =>
    match process_frame dist roi st f t with
    | .ok (_, st') => run_loop dist roi rest st'
    | .error (_, st') => st'

/-- Repeated dedup-cache insertion: feed a sequence of candidate hashes
through `is_duplicate_vehicle`, threading the cache. -/
def dedup_insert_all {Hash : Type} (dist : Hash → Hash → ℕ) :
    List Hash → List Hash → List Hash
  | [], cache => cache
  | h :: rest, cache => dedup_insert_all dist rest (is_duplicate_vehicle dist h cache).2

/-! ### Concrete instantiations used by witnesses and counterexamples

The fingerprint type is instantiated with `ℕ`; `dist01` is a concrete
distance function (identical hashes at distance 0, all other pairs at the
maximal distance 256). -/

/-- A concrete hash-distance function: 0 on equal hashes, 256 otherwise. -/
def dist01 : ℕ → ℕ → ℕ := fun a b => if a = b then 0 else 256

/-- A raw YOLO box: class `car` (id 2), confidence 0.9, centroid (450, 350),
inside the default ROI of a 1000×1000 frame. -/
def rawA : RawBox := { cls := 2, conf := 0.9, xyxy := (400, 300, 500, 400) }

/-- Scenario-A frame: motion ratio 0.1, one passing in-ROI detection, S3
upload succeeding. -/
def frameA : FrameInput ℕ :=
  { motion_ratio := 0.1, width := 1000, height := 1000
    detector := .ok [rawA], fingerprint := 5, upload_ok := true }

/-- The state after processing `frameA` from the initial state at time 10. -/
def stA : CaptureState ℕ :=
  { recent_hashes := [5], last_capture_time := 10, frames_since_last_capture := 0
    stats := { frames_processed := 1, motion_detected := 1, vehicles_detected := 1
               vehicles_in_roi := 1, duplicates_filtered := 0, captures_uploaded := 1
               errors := 0 } }

/-- Scenario-A frame with the S3 upload failing. -/
def frameAF : FrameInput ℕ := { frameA with upload_ok := false }

/-- A frame on which the YOLO call raises an exception. -/
def frameErr : FrameInput ℕ := { frameA with detector := .error "RuntimeError" }

/-- Scenario-C raw box: class `car` but confidence only 0.4. -/
def rawC : RawBox := { cls := 2, conf := 0.4, xyxy := (400, 300, 500, 400) }

/-- Scenario-C frame: motion passes, single detection below the confidence
threshold. -/
def frameC : FrameInput ℕ :=
  { motion_ratio := 0.1, width := 1000, height := 1000
    detector := .ok [rawC], fingerprint := 5, upload_ok := true }

/-- An in-ROI detection with the lower confidence of the two below. -/
def vLo : VehicleDetection :=
  { class_name := "car", confidence := 0.65, bbox := (0, 0, 10, 10), in_roi := true }

/-- An in-ROI detection with higher confidence than `vLo`. -/
def vHi : VehicleDetection :=
  { class_name := "truck", confidence := 0.95, bbox := (20, 0, 40, 10), in_roi := true }

/-! ### Helper lemmas about the dedup cache -/

/-- The duplicate flag of `is_duplicate_vehicle` is the disjunction of the
per-entry comparisons. -/
theorem isdup_fst {Hash : Type} (dist : Hash → Hash → ℕ) (cur : Hash) (l : List Hash) :
    (is_duplicate_vehicle dist cur l).1 = l.any (hash_match dist cur) := by
  by_cases h : l.any (hash_match dist cur) = true
  · simp [is_duplicate_vehicle, h]
  · rw [Bool.not_eq_true] at h
    simp only [is_duplicate_vehicle, h, Bool.false_eq_true, if_false]
    split <;> rfl

/-- On a duplicate, the cache is returned unchanged. -/
theorem isdup_snd_of_true {Hash : Type} (dist : Hash → Hash → ℕ) (cur : Hash)
    (l : List Hash) (h : l.any (hash_match dist cur) = true) :
    (is_duplicate_vehicle dist cur l).2 = l := by
  simp [is_duplicate_vehicle, h]

/-- On a non-duplicate, the candidate is appended and index 0 is popped when
the bound is exceeded. -/
theorem isdup_snd_of_false {Hash : Type} (dist : Hash → Hash → ℕ) (cur : Hash)
    (l : List Hash) (h : l.any (hash_match dist cur) = false) :
    (is_duplicate_vehicle dist cur l).2 =
      if (l ++ [cur]).length > MAX_RECENT_HASHES then (l ++ [cur]).drop 1
      else l ++ [cur] := by
  simp only [is_duplicate_vehicle, h, Bool.false_eq_true, if_false]
  split <;> simp_all

/-- One dedup call keeps the cache within the `MAX_RECENT_HASHES` bound. -/
theorem recent_hashes_bound {Hash : Type} (dist : Hash → Hash → ℕ) (cur : Hash)
    (l : List Hash) (h : l.length ≤ MAX_RECENT_HASHES) :
    (is_duplicate_vehicle dist cur l).2.length ≤ MAX_RECENT_HASHES := by
  by_cases h2 : l.any (hash_match dist cur) = true
  · rw [isdup_snd_of_true dist cur l h2]; exact h
  · rw [Bool.not_eq_true] at h2
    rw [isdup_snd_of_false dist cur l h2]
    split <;> simp_all

/-- The comparison succeeds exactly when the similarity formula of the source
exceeds the threshold. -/
theorem hash_match_true_iff {Hash : Type} (dist : Hash → Hash → ℕ) (a b : Hash) :
    hash_match dist a b = true ↔
      (1 : ℚ) - (dist a b : ℚ) / 256.0 > HASH_SIMILARITY_THRESHOLD := by
  simp [hash_match]

/-- Under `dist01`, distinct hashes never match (similarity 0). -/
theorem hash_match_dist01 {a b : ℕ} (h : a ≠ b) : hash_match dist01 a b = false := by
  norm_num [hash_match, dist01, h, HASH_SIMILARITY_THRESHOLD]

/-- A selected vehicle implies a nonempty detection list. -/
theorem selected_vehicle_nonempty {l : List VehicleDetection} {v : VehicleDetection}
    (h : selected_vehicle l = some v) : l.isEmpty = false := by
  cases l with
  | nil => simp [selected_vehicle] at h
  | cons a as => simp

/-- Stats counters after a frame has passed the motion, detection and ROI
gates (used to state the post-gate normal form of `process_frame`). -/
def roiStats (s : Stats) : Stats :=
  { s with frames_processed := s.frames_processed + 1
           motion_detected := s.motion_detected + 1
           vehicles_detected := s.vehicles_detected + 1
           vehicles_in_roi := s.vehicles_in_roi + 1 }

/-- Normal form of `process_frame` for a frame that passes the motion gate,
whose detector call returns normally, and whose filtered detections contain
an in-ROI vehicle: only the rate limiter, the dedup check and the upload
outcome remain. -/
theorem process_frame_gates {Hash : Type} (dist : Hash → Hash → ℕ) (roi : CameraROI)
    (st : CaptureState Hash) (f : FrameInput Hash) (t : ℚ) (raw : List RawBox)
    (v : VehicleDetection)
    (hmot : has_significant_motion f.motion_ratio = true)
    (hdet : f.detector = Except.ok raw)
    (hsel : selected_vehicle (detect_vehicles_yolo roi f.width f.height raw) = some v) :
    process_frame dist roi st f t =
      if t - st.last_capture_time < CAPTURE_INTERVAL_SECONDS then
        .ok (.rate_limited,
             { st with stats := roiStats st.stats,
                       frames_since_last_capture := st.frames_since_last_capture + 1 })
      else if (is_duplicate_vehicle dist f.fingerprint st.recent_hashes).1 then
        .ok (.duplicate,
             { st with recent_hashes := (is_duplicate_vehicle dist f.fingerprint st.recent_hashes).2,
                       stats := { roiStats st.stats with
                                  duplicates_filtered := st.stats.duplicates_filtered + 1 },
                       frames_since_last_capture := st.frames_since_last_capture + 1 })
      else if f.upload_ok then
        .ok (.admitted true,
             { recent_hashes := (is_duplicate_vehicle dist f.fingerprint st.recent_hashes).2,
               last_capture_time := t, frames_since_last_capture := 0,
               stats := { roiStats st.stats with
                          captures_uploaded := st.stats.captures_uploaded + 1 } })
      else
        .ok (.admitted false,
             { st with recent_hashes := (is_duplicate_vehicle dist f.fingerprint st.recent_hashes).2,
                       stats := { roiStats st.stats with errors := st.stats.errors + 1 },
                       frames_since_last_capture := st.frames_since_last_capture + 1 }) := by
  have hne : (detect_vehicles_yolo roi f.width f.height raw).isEmpty = false :=
    selected_vehicle_nonempty hsel
  cases hup : f.upload_ok <;>
    simp [process_frame, hmot, hdet, hne, hsel, upload_to_s3, hup, roiStats]

/-! ### Claim theorems -/

/-- The scenario-A detection passes the filter and is selected (concrete
evaluation used to discharge gate hypotheses in witnesses). -/
theorem frameA_sel :
    selected_vehicle (detect_vehicles_yolo default_roi frameA.width frameA.height [rawA]) =
      some (mk_detection default_roi frameA.width frameA.height rawA "car") := by
  norm_num [selected_vehicle, detect_vehicles_yolo, frameA, rawA, VEHICLE_CLASSES,
    VEHICLE_CONFIDENCE_THRESHOLD, mk_detection, is_in_capture_zone, default_roi,
    List.find?]

/-- The scenario-A frame passes the motion gate. -/
theorem frameA_motion : has_significant_motion frameA.motion_ratio = true := by
  norm_num [frameA, has_significant_motion, MOTION_THRESHOLD]

/-- Claim C2: for a candidate frame reaching the rate-limiting stage (motion,
detection and ROI gates passed), the frame is rejected `rate_limited` iff
`now - last_capture_time < 2.0`; equivalently it passes iff the elapsed time
is at least the interval, with the boundary inclusive; `last_capture_time`
is 0 at construction, so a first candidate at any wall-clock time
`t ≥ 2.0` passes. -/
theorem claim_C2 {Hash : Type} (dist : Hash → Hash → ℕ) (roi : CameraROI)
    (st : CaptureState Hash) (f : FrameInput Hash) (t : ℚ) (raw : List RawBox)
    (v : VehicleDetection)
    (hmot : has_significant_motion f.motion_ratio = true)
    (hdet : f.detector = Except.ok raw)
    (hsel : selected_vehicle (detect_vehicles_yolo roi f.width f.height raw) = some v) :
    (result_outcome (process_frame dist roi st f t) = some Outcome.rate_limited ↔
      t - st.last_capture_time < CAPTURE_INTERVAL_SECONDS)
    ∧ (pipeline_init : CaptureState Hash).last_capture_time = 0
    ∧ (st.last_capture_time = 0 → CAPTURE_INTERVAL_SECONDS ≤ t →
        result_outcome (process_frame dist roi st f t) ≠ some Outcome.rate_limited) := by
  have hiff : result_outcome (process_frame dist roi st f t) = some Outcome.rate_limited ↔
      t - st.last_capture_time < CAPTURE_INTERVAL_SECONDS := by
    rw [process_frame_gates dist roi st f t raw v hmot hdet hsel]
    by_cases hrl : t - st.last_capture_time < CAPTURE_INTERVAL_SECONDS
    · simp [hrl, result_outcome]
    · rw [if_neg hrl]
      constructor
      · intro hcontra
        exfalso
        revert hcontra
        split <;> (try split) <;> simp [result_outcome]
      · intro hcontra
        exact absurd hcontra hrl
  refine ⟨hiff, rfl, ?_⟩
  intro h0 h2 hra
  have hlt := hiff.mp hra
  rw [h0, sub_zero] at hlt
  exact absurd hlt (not_lt.mpr h2)

/-- Claim C2 witness: scenario A at time 10 from the initial state is not
rate-limited; the boundary characterization holds at this input. -/
theorem claim_C2_witness :
    (result_outcome (process_frame dist01 default_roi pipeline_init frameA 10) =
        some Outcome.rate_limited ↔
      (10 : ℚ) - (pipeline_init : CaptureState ℕ).last_capture_time <
        CAPTURE_INTERVAL_SECONDS)
    ∧ (pipeline_init : CaptureState ℕ).last_capture_time = 0
    ∧ ((pipeline_init : CaptureState ℕ).last_capture_time = 0 →
        CAPTURE_INTERVAL_SECONDS ≤ 10 →
        result_outcome (process_frame dist01 default_roi pipeline_init frameA 10) ≠
          some Outcome.rate_limited) :=
  claim_C2 dist01 default_roi pipeline_init frameA 10 [rawA]
    (mk_detection default_roi frameA.width frameA.height rawA "car")
    frameA_motion rfl frameA_sel

/-- Claim C5: for an admitted frame (all gates passed, not a duplicate), the rate
clock is advanced to `now` exactly when the upload succeeds; on upload
failure the clock keeps its old value and the error counter is incremented
by one. -/
theorem claim_C5 {Hash : Type} (dist : Hash → Hash → ℕ) (roi : CameraROI)
    (st : CaptureState Hash) (f : FrameInput Hash) (t : ℚ) (raw : List RawBox)
    (v : VehicleDetection)
    (hmot : has_significant_motion f.motion_ratio = true)
    (hdet : f.detector = Except.ok raw)
    (hsel : selected_vehicle (detect_vehicles_yolo roi f.width f.height raw) = some v)
    (hrate : ¬ t - st.last_capture_time < CAPTURE_INTERVAL_SECONDS)
    (hdup : (is_duplicate_vehicle dist f.fingerprint st.recent_hashes).1 = false) :
    result_outcome (process_frame dist roi st f t) = some (Outcome.admitted f.upload_ok)
    ∧ (result_state (process_frame dist roi st f t)).last_capture_time =
        (if f.upload_ok then t else st.last_capture_time)
    ∧ (result_state (process_frame dist roi st f t)).stats.errors =
        st.stats.errors + (if f.upload_ok then 0 else 1) := by
  rw [process_frame_gates dist roi st f t raw v hmot hdet hsel, if_neg hrate]
  cases hup : f.upload_ok <;>
    simp [hdup, hup, result_outcome, result_state, roiStats]

/-- Claim C5 witness: scenario A with a failing upload — outcome `admitted false`,
clock left at 0, error counter bumped to 1. -/
theorem claim_C5_witness :
    result_outcome (process_frame dist01 default_roi pipeline_init frameAF 10) =
      some (Outcome.admitted frameAF.upload_ok)
    ∧ (result_state (process_frame dist01 default_roi pipeline_init frameAF 10)).last_capture_time =
        (if frameAF.upload_ok then (10 : ℚ)
         else (pipeline_init : CaptureState ℕ).last_capture_time)
    ∧ (result_state (process_frame dist01 default_roi pipeline_init frameAF 10)).stats.errors =
        (pipeline_init : CaptureState ℕ).stats.errors +
          (if frameAF.upload_ok then 0 else 1) :=
  claim_C5 dist01 default_roi pipeline_init frameAF 10 [rawA]
    (mk_detection default_roi frameAF.width frameAF.height rawA "car")
    (by simpa [frameAF] using frameA_motion)
    rfl
    (by simpa [frameAF] using frameA_sel)
    (by norm_num [pipeline_init, CAPTURE_INTERVAL_SECONDS])
    (by simp [pipeline_init, is_duplicate_vehicle, MAX_RECENT_HASHES])

/-- Claim C6: a frame rejected `rate_limited` (in-zone detection present, interval
not yet elapsed) is rejected before the dedup stage: the hash cache, the
clock and the duplicate counter are all unchanged. -/
theorem claim_C6 {Hash : Type} (dist : Hash → Hash → ℕ) (roi : CameraROI)
    (st : CaptureState Hash) (f : FrameInput Hash) (t : ℚ) (raw : List RawBox)
    (v : VehicleDetection)
    (hmot : has_significant_motion f.motion_ratio = true)
    (hdet : f.detector = Except.ok raw)
    (hsel : selected_vehicle (detect_vehicles_yolo roi f.width f.height raw) = some v)
    (hrl : t - st.last_capture_time < CAPTURE_INTERVAL_SECONDS) :
    result_outcome (process_frame dist roi st f t) = some Outcome.rate_limited
    ∧ (result_state (process_frame dist roi st f t)).recent_hashes = st.recent_hashes
    ∧ (result_state (process_frame dist roi st f t)).last_capture_time =
        st.last_capture_time
    ∧ (result_state (process_frame dist roi st f t)).stats.duplicates_filtered =
        st.stats.duplicates_filtered := by
  rw [process_frame_gates dist roi st f t raw v hmot hdet hsel, if_pos hrl]
  simp [result_outcome, result_state, roiStats]

/-- Claim C6 witness: scenario B — same frame as scenario A but only 1 second of
elapsed time; rejected `rate_limited` with cache, clock and duplicate
counter untouched. -/
theorem claim_C6_witness :
    result_outcome (process_frame dist01 default_roi pipeline_init frameA 1) =
      some Outcome.rate_limited
    ∧ (result_state (process_frame dist01 default_roi pipeline_init frameA 1)).recent_hashes =
        (pipeline_init : CaptureState ℕ).recent_hashes
    ∧ (result_state (process_frame dist01 default_roi pipeline_init frameA 1)).last_capture_time =
        (pipeline_init : CaptureState ℕ).last_capture_time
    ∧ (result_state (process_frame dist01 default_roi pipeline_init frameA 1)).stats.duplicates_filtered =
        (pipeline_init : CaptureState ℕ).stats.duplicates_filtered :=
  claim_C6 dist01 default_roi pipeline_init frameA 1 [rawA]
    (mk_detection default_roi frameA.width frameA.height rawA "car")
    frameA_motion rfl frameA_sel
    (by norm_num [pipeline_init, CAPTURE_INTERVAL_SECONDS])

/-- Claim C7: for a detection list whose in-ROI elements start only after a prefix
of out-of-zone detections, the pipeline's selection loop picks exactly the
first in-zone detection in detector output order — confidence plays no role
in the choice. -/
theorem claim_C7 (l₁ : List VehicleDetection) (v : VehicleDetection)
    (l₂ : List VehicleDetection) (h₁ : ∀ u ∈ l₁, u.in_roi = false)
    (hv : v.in_roi = true) :
    selected_vehicle (l₁ ++ v :: l₂) = some v := by
  induction l₁ with
  | nil =>
      rw [List.nil_append]
      exact List.find?_cons_of_pos _ hv
  | cons a as ih =>
      have ha : a.in_roi = false := h₁ a (by simp)
      rw [List.cons_append]
      show List.find? _ (a :: (as ++ v :: l₂)) = some v
      rw [List.find?_cons_of_neg _ (by simp [ha])]
      exact ih fun u hu => h₁ u (by simp [hu])

/-- Claim C7 witness: two in-zone detections, the first with strictly lower
confidence; the first is selected. -/
theorem claim_C7_witness : selected_vehicle [vLo, vHi] = some vLo :=
  claim_C7 [] vLo [vHi] (by simp) rfl

/-- Claim C3: the duplicate check matches the candidate against every cached
fingerprint with similarity `1 - distance/256.0`; it reports a duplicate iff
some cached entry exceeds the 0.85 threshold, in which case the cache is
unchanged (no insertion); otherwise the candidate is appended (with FIFO
eviction past the bound); and a candidate at distance 0 from some cached
entry is always classified as a duplicate, whatever the cache size. -/
theorem claim_C3 {Hash : Type} (dist : Hash → Hash → ℕ) (current_hash : Hash)
    (cache : List Hash) :
    ((is_duplicate_vehicle dist current_hash cache).1 = true ↔
      ∃ recent ∈ cache,
        (1 : ℚ) - (dist current_hash recent : ℚ) / 256.0 > HASH_SIMILARITY_THRESHOLD)
    ∧ ((is_duplicate_vehicle dist current_hash cache).1 = true →
        (is_duplicate_vehicle dist current_hash cache).2 = cache)
    ∧ ((is_duplicate_vehicle dist current_hash cache).1 = false →
        (is_duplicate_vehicle dist current_hash cache).2 =
          if (cache ++ [current_hash]).length > MAX_RECENT_HASHES then
            (cache ++ [current_hash]).drop 1
          else cache ++ [current_hash])
    ∧ ((∃ recent ∈ cache, dist current_hash recent = 0) →
        (is_duplicate_vehicle dist current_hash cache).1 = true) := by
  have hany : cache.any (hash_match dist current_hash) = true ↔
      ∃ recent ∈ cache,
        (1 : ℚ) - (dist current_hash recent : ℚ) / 256.0 > HASH_SIMILARITY_THRESHOLD := by
    simp only [List.any_eq_true, hash_match_true_iff]
  refine ⟨by rw [isdup_fst]; exact hany, ?_, ?_, ?_⟩
  · intro h
    exact isdup_snd_of_true dist current_hash cache (by rwa [isdup_fst] at h)
  · intro h
    exact isdup_snd_of_false dist current_hash cache (by rwa [isdup_fst] at h)
  · rintro ⟨recent, hmem, hdist⟩
    rw [isdup_fst, hany]
    refine ⟨recent, hmem, ?_⟩
    rw [hdist]
    norm_num [HASH_SIMILARITY_THRESHOLD]

/-- Claim C3 witness: an identical candidate (`7` vs cached `7`, distance 0) is a
duplicate and leaves the cache unchanged; a maximally distant candidate is
inserted by appending. -/
theorem claim_C3_witness :
    (is_duplicate_vehicle dist01 7 [7]).1 = true
    ∧ (is_duplicate_vehicle dist01 7 [7]).2 = [7]
    ∧ (is_duplicate_vehicle dist01 9 [7]).2 = [7, 9] := by
  have h1 : (is_duplicate_vehicle dist01 7 [7]).1 = true :=
    (claim_C3 dist01 7 [7]).2.2.2 ⟨7, by simp, by simp [dist01]⟩
  have h2 : (is_duplicate_vehicle dist01 9 [7]).1 = false := by
    rw [isdup_fst]
    simp [hash_match_dist01 (by decide : (9 : ℕ) ≠ 7)]
  refine ⟨h1, (claim_C3 dist01 7 [7]).2.1 h1, ?_⟩
  rw [(claim_C3 dist01 9 [7]).2.2.1 h2]
  simp [MAX_RECENT_HASHES]

/-- Claim C10: the dedup cache starts empty at construction, a single duplicate
check keeps it within `MAX_RECENT_HASHES`, and hence every `process_frame`
call (normal return or raised exception) preserves the bound. -/
theorem claim_C10 (Hash : Type) :
    (pipeline_init : CaptureState Hash).recent_hashes = []
    ∧ (∀ (dist : Hash → Hash → ℕ) (cur : Hash) (cache : List Hash),
        cache.length ≤ MAX_RECENT_HASHES →
        (is_duplicate_vehicle dist cur cache).2.length ≤ MAX_RECENT_HASHES)
    ∧ (∀ (dist : Hash → Hash → ℕ) (roi : CameraROI) (st : CaptureState Hash)
        (f : FrameInput Hash) (t : ℚ),
        st.recent_hashes.length ≤ MAX_RECENT_HASHES →
        (result_state (process_frame dist roi st f t)).recent_hashes.length ≤
          MAX_RECENT_HASHES) := by
  refine ⟨rfl, fun dist cur cache h => recent_hashes_bound dist cur cache h, ?_⟩
  intro dist roi st f t h
  simp only [process_frame]
  repeat' split
  all_goals simp only [result_state]
  all_goals first
    | exact h
    | exact recent_hashes_bound dist f.fingerprint st.recent_hashes h

/-- Generalized FIFO property of repeated insertion: starting from a cache
within the bound, inserting pairwise-dissimilar hashes (also dissimilar from
the cache contents) leaves exactly the last `MAX_RECENT_HASHES` elements of
cache-then-inserts, in order. -/
theorem dedup_insert_all_go {Hash : Type} (dist : Hash → Hash → ℕ) (l : List Hash) :
    ∀ cache : List Hash, cache.length ≤ MAX_RECENT_HASHES →
      (∀ a ∈ l, ∀ b ∈ cache, hash_match dist a b = false) →
      l.Pairwise (fun a b => hash_match dist b a = false) →
      dedup_insert_all dist l cache =
        (cache ++ l).drop (cache.length + l.length - MAX_RECENT_HASHES) := by
  induction l with
  | nil =>
      intro cache hc _ _
      simp [dedup_insert_all, Nat.sub_eq_zero_of_le (by simpa using hc)]
  | cons a rest ih =>
      intro cache hc hcross hpw
      have hpwa : ∀ x ∈ rest, hash_match dist x a = false :=
        (List.pairwise_cons.mp hpw).1
      have hpwrest : rest.Pairwise (fun x y => hash_match dist y x = false) :=
        (List.pairwise_cons.mp hpw).2
      have hanya : cache.any (hash_match dist a) = false := by
        rw [List.any_eq_false]
        intro b hb
        simp [hcross a (by simp) b hb]
      rw [dedup_insert_all, isdup_snd_of_false dist a cache hanya]
      by_cases hlen : (cache ++ [a]).length > MAX_RECENT_HASHES
      · rw [if_pos hlen]
        have h1c : 1 ≤ cache.length := by simp [MAX_RECENT_HASHES] at hlen; omega
        have hdrop1 : (cache ++ [a]).drop 1 = cache.drop 1 ++ [a] :=
          List.drop_append_of_le_length h1c
        have hlen' : (cache.drop 1 ++ [a]).length ≤ MAX_RECENT_HASHES := by
          simp only [MAX_RECENT_HASHES, List.length_append, List.length_drop,
            List.length_cons, List.length_nil] at hlen hc ⊢
          omega
        have hcross' : ∀ x ∈ rest, ∀ b ∈ cache.drop 1 ++ [a],
            hash_match dist x b = false := by
          intro x hx b hb
          rcases List.mem_append.mp hb with hb | hb
          · exact hcross x (by simp [hx]) b (List.mem_of_mem_drop hb)
          · rw [List.mem_singleton.mp hb]
            exact hpwa x hx
        rw [hdrop1, ih (cache.drop 1 ++ [a]) hlen' hcross' hpwrest]
        have e1 : (cache.drop 1 ++ [a]).length + rest.length - MAX_RECENT_HASHES =
            rest.length := by
          simp [MAX_RECENT_HASHES] at hlen hc ⊢; omega
        have e2 : cache.length + (a :: rest).length - MAX_RECENT_HASHES =
            1 + rest.length := by
          simp [MAX_RECENT_HASHES] at hlen hc ⊢; omega
        rw [e1, e2, ← List.drop_drop, List.drop_append_of_le_length h1c]
        simp
      · rw [if_neg hlen]
        have hlen' : (cache ++ [a]).length ≤ MAX_RECENT_HASHES := by
          simp [MAX_RECENT_HASHES] at hlen ⊢; omega
        have hcross' : ∀ x ∈ rest, ∀ b ∈ cache ++ [a], hash_match dist x b = false := by
          intro x hx b hb
          rcases List.mem_append.mp hb with hb | hb
          · exact hcross x (by simp [hx]) b hb
          · rw [List.mem_singleton.mp hb]
            exact hpwa x hx
        rw [ih (cache ++ [a]) hlen' hcross' hpwrest]
        have e3 : (cache ++ [a]) ++ rest = cache ++ a :: rest := by simp
        have e4 : (cache ++ [a]).length + rest.length - MAX_RECENT_HASHES =
            cache.length + (a :: rest).length - MAX_RECENT_HASHES := by
          simp; omega
        rw [e3, e4]

/-- Claim C4: feeding `K > MAX_RECENT_HASHES` pairwise-dissimilar fingerprints into
the empty dedup cache retains exactly the last `MAX_RECENT_HASHES` of them
in insertion order — the oldest entry is evicted first whenever the size
exceeds the capacity (FIFO). -/
theorem claim_C4 {Hash : Type} (dist : Hash → Hash → ℕ) (l : List Hash)
    (_hK : MAX_RECENT_HASHES < l.length)
    (hpw : l.Pairwise (fun a b => hash_match dist b a = false)) :
    dedup_insert_all dist l [] = l.drop (l.length - MAX_RECENT_HASHES) := by
  have h := dedup_insert_all_go dist l [] (by simp) (by simp) hpw
  simpa using h

/-- Claim C4 witness: 31 pairwise maximally-distant fingerprints inserted into the
empty cache leave exactly the last 30, in order. -/
theorem claim_C4_witness :
    dedup_insert_all dist01 (List.range 31) [] =
      (List.range 31).drop ((List.range 31).length - MAX_RECENT_HASHES) :=
  claim_C4 dist01 (List.range 31) (by simp [MAX_RECENT_HASHES])
    ((List.pairwise_lt_range 31).imp fun h => hash_match_dist01 (Nat.ne_of_gt h))

/-- Claim C10 witness: the bound holds for a concrete insertion into an empty
cache and for a concrete `process_frame` call from the initial state. -/
theorem claim_C10_witness :
    (is_duplicate_vehicle dist01 5 []).2.length ≤ MAX_RECENT_HASHES
    ∧ (result_state
        (process_frame dist01 default_roi pipeline_init frameA 10)).recent_hashes.length ≤
        MAX_RECENT_HASHES :=
  ⟨(claim_C10 ℕ).2.1 dist01 5 [] (by simp),
   (claim_C10 ℕ).2.2 dist01 default_roi pipeline_init frameA 10 (by simp [pipeline_init])⟩

end VehicleMonitor

namespace VehicleMonitor

/-- Specification-side description of the per-outcome stats update: each
branch bumps its matching counters exactly once, and `frames_processed` is
bumped unconditionally at entry. -/
def stats_after_spec : Outcome → Stats → Stats
  | .no_motion, s => { s with frames_processed := s.frames_processed + 1 }
  | .no_detection, s =>
      { s with frames_processed := s.frames_processed + 1
               motion_detected := s.motion_detected + 1 }
  | .no_detection_in_zone, s =>
      { s with frames_processed := s.frames_processed + 1
               motion_detected := s.motion_detected + 1
               vehicles_detected := s.vehicles_detected + 1 }
  | .rate_limited, s =>
      { s with frames_processed := s.frames_processed + 1
               motion_detected := s.motion_detected + 1
               vehicles_detected := s.vehicles_detected + 1
               vehicles_in_roi := s.vehicles_in_roi + 1 }
  | .duplicate, s =>
      { s with frames_processed := s.frames_processed + 1
               motion_detected := s.motion_detected + 1
               vehicles_detected := s.vehicles_detected + 1
               vehicles_in_roi := s.vehicles_in_roi + 1
               duplicates_filtered := s.duplicates_filtered + 1 }
  | .admitted true, s =>
      { s with frames_processed := s.frames_processed + 1
               motion_detected := s.motion_detected + 1
               vehicles_detected := s.vehicles_detected + 1
               vehicles_in_roi := s.vehicles_in_roi + 1
               captures_uploaded := s.captures_uploaded + 1 }
  | .admitted false, s =>
      { s with frames_processed := s.frames_processed + 1
               motion_detected := s.motion_detected + 1
               vehicles_detected := s.vehicles_detected + 1
               vehicles_in_roi := s.vehicles_in_roi + 1
               errors := s.errors + 1 }

/-- Claim C8: every normal `process_frame` return updates the stats exactly as the
per-branch table `stats_after_spec` prescribes — each branch bumps its
matching counters exactly once, `frames_processed` unconditionally — and on
the concrete scenario-A input the admitted frame yields
motion 1, detection 1, ROI 1, uploaded 1. -/
theorem claim_C8 :
    (∀ (Hash : Type) (dist : Hash → Hash → ℕ) (roi : CameraROI)
        (st : CaptureState Hash) (f : FrameInput Hash) (t : ℚ) (o : Outcome)
        (st' : CaptureState Hash),
        process_frame dist roi st f t = .ok (o, st') →
        st'.stats = stats_after_spec o st.stats)
    ∧ process_frame dist01 default_roi pipeline_init frameA 10 =
        .ok (.admitted true, stA)
    ∧ stA.stats = { frames_processed := 1, motion_detected := 1, vehicles_detected := 1
                    vehicles_in_roi := 1, duplicates_filtered := 0, captures_uploaded := 1
                    errors := 0 } := by
  refine ⟨?_, ?_, rfl⟩
  · intro Hash dist roi st f t o st' h
    cases hup : f.upload_ok <;>
      simp only [process_frame, upload_to_s3, hup, Bool.false_eq_true, if_false,
        if_true] at h <;>
      repeat' split at h
    all_goals first
      | (simp only [Except.ok.injEq, Prod.mk.injEq] at h
         obtain ⟨rfl, rfl⟩ := h
         simp [stats_after_spec])
      | simp_all
  · norm_num [process_frame, pipeline_init, frameA, dist01, has_significant_motion,
      MOTION_THRESHOLD, detect_vehicles_yolo, rawA, VEHICLE_CLASSES,
      VEHICLE_CONFIDENCE_THRESHOLD, mk_detection, is_in_capture_zone, default_roi,
      selected_vehicle, CAPTURE_INTERVAL_SECONDS, is_duplicate_vehicle, hash_match,
      HASH_SIMILARITY_THRESHOLD, upload_to_s3, init_stats, stA, List.find?,
      MAX_RECENT_HASHES]
    exact Option.some_ne_none _

/-- Claim C8 witness: the per-branch table applied at the concrete scenario-A run,
with the hypothesis discharged by the theorem's own concrete conjunct. -/
theorem claim_C8_witness :
    stA.stats = stats_after_spec (Outcome.admitted true) (pipeline_init : CaptureState ℕ).stats :=
  claim_C8.1 ℕ dist01 default_roi pipeline_init frameA 10 (Outcome.admitted true) stA
    claim_C8.2.1

/-- The class/confidence filter of `detect_vehicles_yolo`, in isolation:
membership in the vehicle allow-list and strict confidence threshold. -/
def passes_filter (box : RawBox) : Bool :=
  (VEHICLE_CLASSES box.cls).isSome && decide (box.conf > VEHICLE_CONFIDENCE_THRESHOLD)

/-- Claim C9: the detector post-processing is exactly "filter by class allow-list
and minimum confidence, then attach ROI data": every candidate failing the
class or confidence test is discarded before any spatial gating; and a frame
whose only detection has confidence below the threshold is rejected
`no_detection`. -/
theorem claim_C9 :
    (∀ (roi : CameraROI) (w h : ℕ) (boxes : List RawBox),
        detect_vehicles_yolo roi w h boxes =
          (boxes.filter passes_filter).map
            (fun b => mk_detection roi w h b ((VEHICLE_CLASSES b.cls).getD "")))
    ∧ (∀ (Hash : Type) (dist : Hash → Hash → ℕ) (roi : CameraROI)
        (st : CaptureState Hash) (f : FrameInput Hash) (t : ℚ) (b : RawBox),
        has_significant_motion f.motion_ratio = true →
        f.detector = Except.ok [b] →
        b.conf < VEHICLE_CONFIDENCE_THRESHOLD →
        result_outcome (process_frame dist roi st f t) = some Outcome.no_detection) := by
  constructor
  · intro roi w h boxes
    induction boxes with
    | nil => simp [detect_vehicles_yolo]
    | cons b bs ih =>
        simp only [detect_vehicles_yolo, List.filterMap_cons] at ih ⊢
        cases hb : VEHICLE_CLASSES b.cls <;>
          by_cases hc : b.conf > VEHICLE_CONFIDENCE_THRESHOLD <;>
          simp [passes_filter, hb, hc, ih]
  · intro Hash dist roi st f t b hmot hdet hconf
    have hdetect : detect_vehicles_yolo roi f.width f.height [b] = [] := by
      cases hb : VEHICLE_CLASSES b.cls <;>
        simp [detect_vehicles_yolo, hb, lt_asymm hconf]
    simp [process_frame, hmot, hdet, hdetect, result_outcome]

/-- Claim C9 witness: scenario C — a single `car` detection with confidence 0.4 is
filtered out before spatial gating and the frame is rejected `no_detection`. -/
theorem claim_C9_witness :
    result_outcome (process_frame dist01 default_roi pipeline_init frameC 10) =
      some Outcome.no_detection :=
  claim_C9.2 ℕ dist01 default_roi pipeline_init frameC 10 rawC
    (by norm_num [frameC, has_significant_motion, MOTION_THRESHOLD])
    rfl
    (by norm_num [rawC, VEHICLE_CONFIDENCE_THRESHOLD])

/-- Claim C1 counterexample: on a frame whose YOLO call raises, `process_frame`
has no normal outcome (the exception propagates out of it), the error
counter is not incremented, and the streaming loop stops: of two sampled
frames only the first is ever processed and `errors` stays 0 — contradicting
"zero detections + error counted + loop continues". -/
theorem claim_C1_counterexample :
    result_outcome (process_frame dist01 default_roi pipeline_init frameErr 10) = none
    ∧ (result_state (process_frame dist01 default_roi pipeline_init frameErr 10)).stats.errors = 0
    ∧ (run_loop dist01 default_roi [(frameErr, 10), (frameA, 13)] pipeline_init).stats.frames_processed = 1
    ∧ (run_loop dist01 default_roi [(frameErr, 10), (frameA, 13)] pipeline_init).stats.errors = 0 := by
  have hpf : process_frame dist01 default_roi pipeline_init frameErr 10 =
      .error ("RuntimeError",
        { recent_hashes := [], last_capture_time := 0, frames_since_last_capture := 1
          stats := { frames_processed := 1, motion_detected := 1, vehicles_detected := 0
                     vehicles_in_roi := 0, duplicates_filtered := 0, captures_uploaded := 0
                     errors := 0 } }) := by
    norm_num [process_frame, pipeline_init, frameErr, frameA, has_significant_motion,
      MOTION_THRESHOLD, init_stats]
  refine ⟨by rw [hpf]; rfl, by rw [hpf]; rfl, ?_, ?_⟩ <;>
    simp [run_loop, hpf]

/-- Claim C1 as amended: a failing object-detection call raises out of
`process_frame` (no conversion to zero detections); the raised-state carries
an unchanged error counter, cache and clock; and the streaming loop, whose
`try` surrounds the whole `while`, terminates at that state instead of
continuing with the remaining frames. -/
theorem claim_C1_amended {Hash : Type} (dist : Hash → Hash → ℕ) (roi : CameraROI)
    (st : CaptureState Hash) (f : FrameInput Hash) (t : ℚ)
    (rest : List (FrameInput Hash × ℚ)) (e : String)
    (hmot : has_significant_motion f.motion_ratio = true)
    (hdet : f.detector = Except.error e) :
    result_outcome (process_frame dist roi st f t) = none
    ∧ (result_state (process_frame dist roi st f t)).stats.errors = st.stats.errors
    ∧ (result_state (process_frame dist roi st f t)).recent_hashes = st.recent_hashes
    ∧ (result_state (process_frame dist roi st f t)).last_capture_time =
        st.last_capture_time
    ∧ run_loop dist roi ((f, t) :: rest) st =
        result_state (process_frame dist roi st f t) := by
  have hpf : process_frame dist roi st f t =
      .error (e,
        { st with
          stats := { st.stats with
            frames_processed := st.stats.frames_processed + 1
            motion_detected := st.stats.motion_detected + 1 }
          frames_since_last_capture := st.frames_since_last_capture + 1 }) := by
    simp [process_frame, hmot, hdet]
  rw [hpf]
  exact ⟨rfl, rfl, rfl, rfl, by simp [run_loop, hpf, result_state]⟩

/-- Claim C1 amended witness: the concrete raising run — exception propagates,
errors stay 0, the loop ends without reaching the second frame. -/
theorem claim_C1_amended_witness :
    result_outcome (process_frame dist01 default_roi pipeline_init frameErr 10) = none
    ∧ (result_state (process_frame dist01 default_roi pipeline_init frameErr 10)).stats.errors =
        (pipeline_init : CaptureState ℕ).stats.errors
    ∧ (result_state (process_frame dist01 default_roi pipeline_init frameErr 10)).recent_hashes =
        (pipeline_init : CaptureState ℕ).recent_hashes
    ∧ (result_state (process_frame dist01 default_roi pipeline_init frameErr 10)).last_capture_time =
        (pipeline_init : CaptureState ℕ).last_capture_time
    ∧ run_loop dist01 default_roi [(frameErr, 10), (frameA, 13)] pipeline_init =
        result_state (process_frame dist01 default_roi pipeline_init frameErr 10) :=
  claim_C1_amended dist01 default_roi pipeline_init frameErr 10 [(frameA, 13)] "RuntimeError"
    (by norm_num [frameErr, frameA, has_significant_motion, MOTION_THRESHOLD])
    rfl

end VehicleMonitor
